import Mathlib

/-!
Shallow embedding of the iron-llm Flask application (`src/app.py`).

The application is a retrieval-augmented chat endpoint:
`retrieve_context` embeds the query, queries a vector index and joins the
matches into a context block; the `chat` route composes a prompt, calls the
generative model, appends the turn to the cookie-backed session history,
fire-and-forgets an audit row to a spreadsheet, and renders the history
most recent first.

External services (sentence-transformers embedder, Pinecone index, Gemini
model, gspread spreadsheet) are modelled as function-valued parameters that
may fail (`Except String`), mirroring the Python calls that may raise.
Python strings are Lean `String`s; Python dicts with optional keys are
records with `Option` fields; a raised exception is `Except.error` carrying
the error detail string.
-/

namespace IronLLM

/-- Metadata dict of one Pinecone match (`m["metadata"]` in `app.py`).
`m["metadata"]["text"]` is an unguarded lookup (raises `KeyError` when the
key is absent), hence `text : Option String`; `m["metadata"].get("source",
"unknown")` is a defaulted lookup, hence `source : Option String`. -/
structure Metadata where
  text : Option String
  source : Option String

/-- One match record returned by `index.query(..., include_metadata=True)`.
The handler only ever reads `m["metadata"]`; the similarity score is carried
along but never read downstream. -/
structure MatchRecord where
  metadata : Metadata
  score : Float

/-- One conversation turn, the dict `\x7b"query": query, "response": response\x7d`
appended to `session["history"]` (app.py line 136). -/
structure Turn where
  query : String
  response : String
deriving DecidableEq

/-- The per-browser session: the two keys the handler stores in the Flask
`session` mapping. `none` models the key being absent from the mapping. -/
structure SessionState where
  history : Option (List Turn)
  session_id : Option String
deriving DecidableEq

/-- External retrieval/generation services as seen from the handler:
`encode` is `embedder.encode([...])[0].tolist()`, `indexQuery` is
`index.query(vector, top_k, include_metadata=True)` returning the
`"matches"` list, `generate` is `model.generate_content(...).text`.
Each may fail with an error-detail string (a raised exception). -/
structure RagEnv where
  encode : String → Except String (List Float)
  indexQuery : List Float → Nat → Except String (List MatchRecord)
  generate : String → Except String String

/-- External audit-path services used by `log_to_google_sheet`:
base64+JSON credential decoding, `gspread.authorize`, spreadsheet open,
and `sheet.append_row`. Handle types are opaque strings. -/
structure AuditEnv where
  creds_b64 : Option String
  decodeCreds : String → Except String String
  authorize : String → Except String String
  openSheet : String → Except String String
  appendRow : String → List String → Except String Unit

/-- `get_google_credentials` (app.py lines 80-89): raise `ValueError` when
the `GOOGLE_CREDS_B64` environment variable is absent, else decode the
base64 blob into a credentials object. -/
def get_google_credentials (env : AuditEnv) : Except String String :=
  match env.creds_b64 with
  | none => Except.error "Missing GOOGLE_CREDS_B64 environment variable."
  | some b => env.decodeCreds b

/-- `log_to_google_sheet` (app.py lines 92-104): run the whole audit path
inside `try`, and on any failure swallow the exception, returning only the
operational log line printed to stdout (`none` when the append succeeded).
The function is total: it never propagates a failure to its caller. -/
def log_to_google_sheet (env : AuditEnv) (session_id user_input bot_response now : String) :
    Option String :=
  match (do
      let creds ← get_google_credentials env
      let client ← env.authorize creds
      let sheet ← env.openSheet client
      env.appendRow sheet [session_id, now, user_input, bot_response] :
      Except String Unit) with
  | Except.ok _ => none
  | Except.error e => some ("❌ Failed to log to Google Sheet: " ++ e)

/-- The body of the list comprehension in `retrieve_context` (app.py line
112): `f"\x7bm['metadata']['text']\x7d (source: \x7bm['metadata'].get('source', 'unknown')\x7d)"`.
The `['text']` lookup raises `KeyError` when the key is absent. -/
def format_match (m : MatchRecord) : Except String String :=
  match m.metadata.text with
  | none => Except.error "KeyError: 'text'"
  | some t => Except.ok (t ++ " (source: " ++ m.metadata.source.getD "unknown" ++ ")")

/-- The list comprehension of app.py lines 111-114: format the matches left
to right; the first raised `KeyError` aborts the whole comprehension. -/
def format_all : List MatchRecord → Except String (List String)
  | [] => Except.ok []
  | m :: ms =>
    match format_match m with
    | Except.error e => Except.error e
    | Except.ok s =>
      match format_all ms with
      | Except.error e => Except.error e
      | Except.ok rest => Except.ok (s :: rest)

/-- `retrieve_context` (app.py lines 107-115): embed `"query: " + query`,
query the index for the top `top_k` matches with metadata, format each
match, and join the pieces with a blank line. Any failure of the embedding
call, the index call, or a missing `text` key propagates (no `try`). -/
def retrieve_context (encode : String → Except String (List Float))
    (indexQuery : List Float → Nat → Except String (List MatchRecord))
    (query : String) (top_k : Nat) : Except String String :=
  let formatted_query := "query: " ++ query
  match encode formatted_query with
  | Except.error e => Except.error e
  | Except.ok q_emb =>
    match indexQuery q_emb top_k with
    | Except.error e => Except.error e
    | Except.ok results =>
      match format_all results with
      | Except.error e => Except.error e
      | Except.ok context_pieces => Except.ok (String.intercalate "\n\n" context_pieces)

/-- The default `top_k` of `retrieve_context` (app.py line 107); the route
calls `retrieve_context(query)` with this default. -/
def default_top_k : Nat := 20

/-- The f-string prompt of app.py line 131:
`f"Use this context to answer the question:\n\n\x7bcontext\x7d\n\nQuestion: \x7bquery\x7d"`. -/
def compose_prompt (context query : String) : String :=
  "Use this context to answer the question:\n\n" ++ context ++ "\n\nQuestion: " ++ query

/-- App.py lines 120-122: `if "history" not in session: session["history"] =
[]; session["session_id"] = str(uuid.uuid4())`. `fresh_id` is the freshly
generated UUID (used only when the branch is taken). -/
def ensure_session (fresh_id : String) (s : SessionState) : SessionState :=
  if s.history.isNone then { history := some [], session_id := some fresh_id } else s

/-- What one request hands back: the updated session mapping, the rendered
transcript (the `history=reversed(session["history"])` argument of
`render_template_string`, app.py line 141), and the operational log line
printed by the audit logger (not part of the HTTP response). -/
structure ChatResult where
  session : SessionState
  rendered : List Turn
  opLog : Option String
deriving DecidableEq

/-- The `chat` route on a GET request (app.py lines 118-141 with
`request.method ≠ "POST"`): ensure the session exists, skip the pipeline,
render the (possibly empty) history most recent first. -/
def chat_get (fresh_id : String) (s0 : SessionState) : ChatResult :=
  let s := ensure_session fresh_id s0
  { session := s, rendered := (s.history.getD []).reverse, opLog := none }

/-- The `chat` route on a POST request (app.py lines 118-141): ensure the
session exists, run `retrieve_context` (failures propagate — only the
generation call sits inside `try`), compose the prompt, call the model
(converting a generation failure into the warning response string), append
the turn to the history, fire-and-forget the audit row, and render the
history most recent first. `now` is `datetime.utcnow().isoformat()`.
An unhandled exception surfaces as `Except.error` (HTTP 500, no page). -/
def chat_post (rag : RagEnv) (audit : AuditEnv) (fresh_id now : String)
    (s0 : SessionState) (query : String) : Except String ChatResult :=
  let s := ensure_session fresh_id s0
  match retrieve_context rag.encode rag.indexQuery query default_top_k with
  | Except.error e => Except.error e
  | Except.ok context =>
    let response :=
      match rag.generate (compose_prompt context query) with
      | Except.ok text => text
      | Except.error e => "⚠️ Error generating response: " ++ e
    let history := s.history.getD [] ++ [{ query := query, response := response }]
    let s1 : SessionState := { history := some history, session_id := s.session_id }
    match s1.session_id with
    | none => Except.error "KeyError: 'session_id'"
    | some sid =>
      let opLog := log_to_google_sheet audit sid query response now
      Except.ok { session := s1, rendered := history.reverse, opLog := opLog }

/-- Session states producible by the handler, starting from a browser with
no session cookie (both keys absent) and applying GET and successful POST
requests. A request that dies with an unhandled exception produces no new
rendered state for the browser beyond what `ensure_session` produced, which
coincides with the GET transition. -/
inductive Reachable : SessionState → Prop
  | init : Reachable { history := none, session_id := none }
  | get : ∀ (s : SessionState) (fid : String), Reachable s →
      Reachable (chat_get fid s).session
  | post : ∀ (s : SessionState) (rag : RagEnv) (audit : AuditEnv)
      (fid now q : String) (r : ChatResult), Reachable s →
      chat_post rag audit fid now s q = Except.ok r → Reachable r.session

/-- Shorthand for a conversation-turn record. -/
def mkTurn (q r : String) : Turn :=
  { query := q, response := r }

/-- A sample retrieval/generation environment for concrete checks: the
embedder and the index succeed, the index returns zero matches, and the
model behaves as `gen`. -/
def sample_rag (gen : Except String String) : RagEnv :=
  { encode := fun _ => Except.ok [1.0], indexQuery := fun _ _ => Except.ok [],
    generate := fun _ => gen }

/-- A sample audit environment for concrete checks: credentials decode and
authorization succeed and the row append behaves as `append`. -/
def sample_audit (append : Except String Unit) : AuditEnv :=
  { creds_b64 := some "b64", decodeCreds := fun _ => Except.ok "c",
    authorize := fun _ => Except.ok "cl", openSheet := fun _ => Except.ok "sh",
    appendRow := fun _ _ => append }

/-! ## Helper lemmas -/

/-- The string `format_match` produces when the `text` key is present:
snippet, then the source label (or `"unknown"`) in parentheses. -/
def format_piece (m : MatchRecord) : String :=
  m.metadata.text.getD "" ++ " (source: " ++ m.metadata.source.getD "unknown" ++ ")"

theorem format_match_of_text (m : MatchRecord) (h : m.metadata.text.isSome) :
    format_match m = Except.ok (format_piece m) := by
  unfold format_match format_piece
  cases htx : m.metadata.text with
  | none => rw [htx] at h; simp at h
  | some t => simp [htx]

theorem format_all_of_text (M : List MatchRecord)
    (h : ∀ m ∈ M, m.metadata.text.isSome) :
    format_all M = Except.ok (M.map format_piece) := by
  induction M with
  | nil => rfl
  | cons m ms ih =>
    have hm := format_match_of_text m (h m (List.mem_cons_self m ms))
    have hms := ih (fun x hx => h x (List.mem_cons_of_mem m hx))
    simp [format_all, hm, hms]

theorem format_all_of_missing_text (M : List MatchRecord)
    (h : ∃ m ∈ M, m.metadata.text = none) :
    format_all M = Except.error "KeyError: 'text'" := by
  induction M with
  | nil => simp at h
  | cons m ms ih =>
    rcases h with ⟨x, hx, hxt⟩
    rcases List.mem_cons.mp hx with rfl | hxms
    · simp [format_all, format_match, hxt]
    · cases hmt : m.metadata.text with
      | none => simp [format_all, format_match, hmt]
      | some t => simp [format_all, format_match, hmt, ih ⟨x, hxms, hxt⟩]

/-- Splitting the composed prompt just before its `"Question: "` tail. -/
theorem compose_prompt_split (c q : String) :
    compose_prompt c q =
      ("Use this context to answer the question:\n\n" ++ c ++ "\n\n") ++ ("Question: " ++ q) :=
  calc compose_prompt c q
      = ("Use this context to answer the question:\n\n" ++ c) ++ ("\n\nQuestion: " ++ q) :=
        String.append_assoc _ _ _
    _ = ("Use this context to answer the question:\n\n" ++ c) ++
          (("\n\n" ++ "Question: ") ++ q) := rfl
    _ = ("Use this context to answer the question:\n\n" ++ c) ++
          ("\n\n" ++ ("Question: " ++ q)) := by rw [String.append_assoc "\n\n" "Question: " q]
    _ = ("Use this context to answer the question:\n\n" ++ c ++ "\n\n") ++ ("Question: " ++ q) :=
        (String.append_assoc _ _ _).symm

/-- Inverting a successful POST: the new session appends exactly one turn
(whose `query` field is the posted query) to the ensured history, keeps the
ensured session id, and renders that history reversed. -/
theorem chat_post_ok_inversion (rag : RagEnv) (audit : AuditEnv)
    (fid now q : String) (s0 : SessionState) (r : ChatResult)
    (hok : chat_post rag audit fid now s0 q = Except.ok r) :
    ∃ t : Turn, t.query = q ∧
      r.session = { history := some ((ensure_session fid s0).history.getD [] ++ [t]),
                    session_id := (ensure_session fid s0).session_id } ∧
      r.rendered = ((ensure_session fid s0).history.getD [] ++ [t]).reverse := by
  simp only [chat_post] at hok
  split at hok
  · exact absurd hok (by simp)
  · split at hok
    · exact absurd hok (by simp)
    · split at hok
      all_goals cases hok
      all_goals exact ⟨_, rfl, rfl, rfl⟩

/-! ## Claim theorems -/

/-- Claim C2: the composed prompt is the deterministic template — the
instruction line, a blank line, the context block, a blank line, and
`"Question: " + Q` — so it contains the literal question text, ends with
`"Question: " + Q`, and is non-empty even when the context is empty. -/
theorem compose_prompt_contains_question (c q : String) :
    compose_prompt c q =
      "Use this context to answer the question:" ++ "\n\n" ++ c ++ "\n\n" ++
        ("Question: " ++ q) ∧
    (∃ pre, compose_prompt c q = pre ++ ("Question: " ++ q)) ∧
    (∃ pre post, compose_prompt c q = pre ++ q ++ post) ∧
    compose_prompt c q ≠ "" := by
  refine ⟨?_, ⟨"Use this context to answer the question:\n\n" ++ c ++ "\n\n",
      compose_prompt_split c q⟩, ?_, ?_⟩
  · rw [compose_prompt_split]
    rfl
  · refine ⟨"Use this context to answer the question:\n\n" ++ c ++ "\n\nQuestion: ", "", ?_⟩
    rw [String.append_empty]
    rfl
  · intro h
    have h2 := congrArg String.length h
    rw [show ("" : String).length = 0 from rfl] at h2
    unfold compose_prompt at h2
    rw [String.length_append, String.length_append, String.length_append] at h2
    rw [show ("Use this context to answer the question:\n\n" : String).length = 42 from rfl] at h2
    omega

/-- Claim C8: a failure of the embedding call or of the vector-index call is
caught nowhere — it propagates out of `retrieve_context` and out of the POST
handler as an unhandled failure, with no warning-message response. -/
theorem retrieval_failure_propagates (rag : RagEnv) (audit : AuditEnv)
    (fid now q e : String) (s0 : SessionState)
    (hfail : rag.encode ("query: " ++ q) = Except.error e ∨
      ∃ v, rag.encode ("query: " ++ q) = Except.ok v ∧
        rag.indexQuery v default_top_k = Except.error e) :
    retrieve_context rag.encode rag.indexQuery q default_top_k = Except.error e ∧
    chat_post rag audit fid now s0 q = Except.error e := by
  have hr : retrieve_context rag.encode rag.indexQuery q default_top_k = Except.error e := by
    rcases hfail with h | ⟨v, hv, hq⟩
    · unfold retrieve_context
      simp [h]
    · unfold retrieve_context
      simp [hv, hq]
  refine ⟨hr, ?_⟩
  unfold chat_post
  simp [hr]

/-- Witness for C8: a concrete embedding-service failure terminates both the
retrieval and the whole POST with that same unhandled error. -/
theorem retrieval_failure_propagates_witness :
    retrieve_context (fun _ => Except.error "ConnectionError")
      (fun _ _ => Except.ok []) "What dose?" default_top_k =
        Except.error "ConnectionError" ∧
    chat_post
      { encode := fun _ => Except.error "ConnectionError",
        indexQuery := fun _ _ => Except.ok [],
        generate := fun _ => Except.ok "answer" }
      { creds_b64 := none, decodeCreds := fun _ => Except.ok "c",
        authorize := fun _ => Except.ok "cl", openSheet := fun _ => Except.ok "sh",
        appendRow := fun _ _ => Except.ok () }
      "fid-1" "2024-01-01T00:00:00" { history := none, session_id := none } "What dose?" =
        Except.error "ConnectionError" :=
  retrieval_failure_propagates
    { encode := fun _ => Except.error "ConnectionError",
      indexQuery := fun _ _ => Except.ok [],
      generate := fun _ => Except.ok "answer" }
    { creds_b64 := none, decodeCreds := fun _ => Except.ok "c",
      authorize := fun _ => Except.ok "cl", openSheet := fun _ => Except.ok "sh",
      appendRow := fun _ _ => Except.ok () }
    "fid-1" "2024-01-01T00:00:00" "What dose?" "ConnectionError"
    { history := none, session_id := none } (Or.inl rfl)

/-- Claim C1: `retrieve_context` embeds `"query: " + Q`, formats each match
the index returns as `"<text> (source: <source-or-unknown>)"`, and joins the
pieces with a blank line in index order, with no re-ranking, deduplication
or filtering. -/
theorem retrieve_formats_in_index_order
    (encode : String → Except String (List Float))
    (indexQuery : List Float → Nat → Except String (List MatchRecord))
    (q : String) (v : List Float) (M : List MatchRecord)
    (henc : encode ("query: " ++ q) = Except.ok v)
    (hidx : indexQuery v 20 = Except.ok M)
    (htext : ∀ m ∈ M, m.metadata.text.isSome) :
    retrieve_context encode indexQuery q 20 =
      Except.ok (String.intercalate "\n\n" (M.map format_piece)) := by
  unfold retrieve_context
  simp only [henc, hidx, format_all_of_text M htext]

/-- Witness for C1: the spec's concrete scenario — two matches with sources
`doc1` and `doc2` yield exactly the two formatted lines joined by a blank
line, in index order. -/
theorem retrieve_formats_in_index_order_witness :
    retrieve_context (fun _ => Except.ok [1.0])
      (fun _ _ => Except.ok
        [{ metadata := { text := some "Lock all valves", source := some "doc1" }, score := 0.9 },
         { metadata := { text := some "Notify supervisor", source := some "doc2" }, score := 0.8 }])
      "What is the lockout procedure?" 20 =
      Except.ok "Lock all valves (source: doc1)\n\nNotify supervisor (source: doc2)" := by
  have h := retrieve_formats_in_index_order (fun _ => Except.ok [1.0])
    (fun _ _ => Except.ok
      [{ metadata := { text := some "Lock all valves", source := some "doc1" }, score := 0.9 },
       { metadata := { text := some "Notify supervisor", source := some "doc2" }, score := 0.8 }])
    "What is the lockout procedure?" [1.0]
    [{ metadata := { text := some "Lock all valves", source := some "doc1" }, score := 0.9 },
     { metadata := { text := some "Notify supervisor", source := some "doc2" }, score := 0.8 }]
    rfl rfl (by decide)
  exact h.trans rfl

/-- Claim C9: a match whose metadata lacks the `source` key degrades to the
literal label `unknown` without error, while a match whose metadata lacks
the `text` key makes `retrieve_context` fail (the unguarded `['text']`
lookup raises `KeyError`) instead of producing a context block. -/
theorem retrieve_metadata_guards
    (enc1 enc2 : String → Except String (List Float))
    (idx1 idx2 : List Float → Nat → Except String (List MatchRecord))
    (q1 q2 t : String) (v1 v2 : List Float) (sc : Float) (M2 : List MatchRecord)
    (henc1 : enc1 ("query: " ++ q1) = Except.ok v1)
    (hidx1 : idx1 v1 20 = Except.ok [{ metadata := { text := some t, source := none }, score := sc }])
    (henc2 : enc2 ("query: " ++ q2) = Except.ok v2)
    (hidx2 : idx2 v2 20 = Except.ok M2)
    (hmiss : ∃ m ∈ M2, m.metadata.text = none) :
    retrieve_context enc1 idx1 q1 20 = Except.ok (t ++ " (source: unknown)") ∧
    retrieve_context enc2 idx2 q2 20 = Except.error "KeyError: 'text'" := by
  constructor
  · have h1 := retrieve_formats_in_index_order enc1 idx1 q1 v1
      [{ metadata := { text := some t, source := none }, score := sc }]
      henc1 hidx1 (by simp)
    rw [h1]
    show Except.ok (((t ++ " (source: ") ++ "unknown") ++ ")") = _
    rw [String.append_assoc, String.append_assoc]
    rfl
  · unfold retrieve_context
    simp only [henc2, hidx2, format_all_of_missing_text M2 hmiss]

/-- Witness for C9: a concrete match without a `source` key produces the
`unknown` label, and a concrete match without a `text` key makes the
retrieval raise. -/
theorem retrieve_metadata_guards_witness :
    retrieve_context (fun _ => Except.ok [1.0])
      (fun _ _ => Except.ok
        [{ metadata := { text := some "Check ferritin", source := none }, score := 0.7 }])
      "iron" 20 = Except.ok "Check ferritin (source: unknown)" ∧
    retrieve_context (fun _ => Except.ok [2.0])
      (fun _ _ => Except.ok
        [{ metadata := { text := none, source := some "doc3" }, score := 0.6 }])
      "iron" 20 = Except.error "KeyError: 'text'" :=
  retrieve_metadata_guards (fun _ => Except.ok [1.0]) (fun _ => Except.ok [2.0])
    (fun _ _ => Except.ok
      [{ metadata := { text := some "Check ferritin", source := none }, score := 0.7 }])
    (fun _ _ => Except.ok
      [{ metadata := { text := none, source := some "doc3" }, score := 0.6 }])
    "iron" "iron" "Check ferritin" [1.0] [2.0] 0.7
    [{ metadata := { text := none, source := some "doc3" }, score := 0.6 }]
    rfl rfl rfl rfl
    ⟨{ metadata := { text := none, source := some "doc3" }, score := 0.6 },
      List.mem_cons_self _ _, rfl⟩

/-- Claim C3: when the generation call fails with detail `e`, the stored
response is the warning string `"⚠️ Error generating response: " ++ e`, the
turn is appended to the history exactly as a successful turn would be, and
the request completes successfully end-to-end. -/
theorem generation_failure_surfaced (rag : RagEnv) (audit : AuditEnv)
    (fid now q e context sid : String) (s0 : SessionState)
    (hretr : retrieve_context rag.encode rag.indexQuery q default_top_k = Except.ok context)
    (hgen : rag.generate (compose_prompt context q) = Except.error e)
    (hsid : (ensure_session fid s0).session_id = some sid) :
    chat_post rag audit fid now s0 q = Except.ok
      { session := { history := some ((ensure_session fid s0).history.getD [] ++ [mkTurn q ("⚠️ Error generating response: " ++ e)]), session_id := some sid },
        rendered := ((ensure_session fid s0).history.getD [] ++ [mkTurn q ("⚠️ Error generating response: " ++ e)]).reverse,
        opLog := log_to_google_sheet audit sid q ("⚠️ Error generating response: " ++ e) now } := by
  simp only [chat_post, hretr, hgen, hsid, mkTurn]

/-- Witness for C3: a concrete quota error becomes the warning response, the
turn is still appended, and the request returns a normal page. -/
theorem generation_failure_surfaced_witness :
    chat_post (sample_rag (Except.error "429 Resource has been exhausted"))
      (sample_audit (Except.ok ())) "sid-1" "2024-01-01T00:00:00"
      { history := none, session_id := none } "What dose?" = Except.ok
      { session := { history := some [mkTurn "What dose?" "⚠️ Error generating response: 429 Resource has been exhausted"], session_id := some "sid-1" },
        rendered := [mkTurn "What dose?" "⚠️ Error generating response: 429 Resource has been exhausted"],
        opLog := none } :=
  generation_failure_surfaced (sample_rag (Except.error "429 Resource has been exhausted"))
    (sample_audit (Except.ok ())) "sid-1" "2024-01-01T00:00:00" "What dose?"
    "429 Resource has been exhausted" "" "sid-1"
    { history := none, session_id := none } rfl rfl rfl

/-- Claim C4: appending a turn makes the history exactly one longer and
leaves every prior turn unchanged in place, and a successful POST appends
exactly one turn to the ensured session history. -/
theorem append_one_turn (rag : RagEnv) (audit : AuditEnv) (fid now q : String)
    (s0 : SessionState) (r : ChatResult) (h : List Turn) (t : Turn)
    (hok : chat_post rag audit fid now s0 q = Except.ok r) :
    (h ++ [t]).length = h.length + 1 ∧
    (h ++ [t]).take h.length = h ∧
    (r.session.history.getD []).length =
      ((ensure_session fid s0).history.getD []).length + 1 ∧
    (r.session.history.getD []).take ((ensure_session fid s0).history.getD []).length =
      (ensure_session fid s0).history.getD [] := by
  obtain ⟨t', _, hsess, _⟩ := chat_post_ok_inversion rag audit fid now q s0 r hok
  rw [hsess]
  refine ⟨by simp, List.take_left h [t], by simp, List.take_left _ _⟩

/-- Witness for C4: a concrete successful POST on a session holding one
prior turn yields a two-turn history whose first entry is the prior turn. -/
theorem append_one_turn_witness :
    ([mkTurn "a" "b"] ++ [mkTurn "c" "d"]).length = [mkTurn "a" "b"].length + 1 ∧
    ([mkTurn "a" "b"] ++ [mkTurn "c" "d"]).take 1 = [mkTurn "a" "b"] ∧
    ([mkTurn "a" "b", mkTurn "Why iron?" "ans"] : List Turn).length = [mkTurn "a" "b"].length + 1 ∧
    ([mkTurn "a" "b", mkTurn "Why iron?" "ans"] : List Turn).take 1 = [mkTurn "a" "b"] :=
  append_one_turn (sample_rag (Except.ok "ans")) (sample_audit (Except.ok ()))
    "sid-1" "2024-01-01T00:00:00" "Why iron?"
    { history := some [mkTurn "a" "b"], session_id := some "sid-0" }
    { session := { history := some [mkTurn "a" "b", mkTurn "Why iron?" "ans"], session_id := some "sid-0" },
      rendered := [mkTurn "Why iron?" "ans", mkTurn "a" "b"], opLog := none }
    [mkTurn "a" "b"] (mkTurn "c" "d") rfl

/-- Claim C5: every request renders the full history most recent first — the
rendering is the reverse of the session's append-ordered turn list, and the
turn appended by the latest POST appears first. -/
theorem rendered_most_recent_first (rag : RagEnv) (audit : AuditEnv)
    (fid fid2 now q : String) (s0 s0' : SessionState) (r : ChatResult)
    (hok : chat_post rag audit fid now s0 q = Except.ok r) :
    (chat_get fid2 s0').rendered = ((chat_get fid2 s0').session.history.getD []).reverse ∧
    r.rendered = (r.session.history.getD []).reverse ∧
    r.rendered.head?.map Turn.query = some q := by
  obtain ⟨t, htq, hsess, hrend⟩ := chat_post_ok_inversion rag audit fid now q s0 r hok
  refine ⟨rfl, ?_, ?_⟩
  · rw [hsess, hrend]
    rfl
  · rw [hrend]
    simp [htq]

/-- Witness for C5: after a concrete POST the rendered transcript is the
reversed history and its first entry is the turn just asked. -/
theorem rendered_most_recent_first_witness :
    (chat_get "sid-9" { history := none, session_id := none }).rendered = [] ∧
    [mkTurn "Why iron?" "ans", mkTurn "a" "b"] =
      ([mkTurn "a" "b", mkTurn "Why iron?" "ans"] : List Turn).reverse ∧
    ([mkTurn "Why iron?" "ans", mkTurn "a" "b"] : List Turn).head?.map Turn.query =
      some "Why iron?" :=
  rendered_most_recent_first (sample_rag (Except.ok "ans")) (sample_audit (Except.ok ()))
    "sid-1" "sid-9" "2024-01-01T00:00:00" "Why iron?"
    { history := some [mkTurn "a" "b"], session_id := some "sid-0" }
    { history := none, session_id := none }
    { session := { history := some [mkTurn "a" "b", mkTurn "Why iron?" "ans"], session_id := some "sid-0" },
      rendered := [mkTurn "Why iron?" "ans", mkTurn "a" "b"], opLog := none }
    rfl

/-- Claim C6: when the index returns zero matches, `retrieve_context` yields
the empty string (not an error), and the POST pipeline still performs the
generation step on that empty context — the generated answer is stored. -/
theorem zero_matches_empty_context (rag : RagEnv) (audit : AuditEnv)
    (fid now q sid ans : String) (v : List Float) (s0 : SessionState)
    (henc : rag.encode ("query: " ++ q) = Except.ok v)
    (hidx : rag.indexQuery v default_top_k = Except.ok [])
    (hgen : rag.generate (compose_prompt "" q) = Except.ok ans)
    (hsid : (ensure_session fid s0).session_id = some sid) :
    retrieve_context rag.encode rag.indexQuery q default_top_k = Except.ok "" ∧
    chat_post rag audit fid now s0 q = Except.ok
      { session := { history := some ((ensure_session fid s0).history.getD [] ++ [mkTurn q ans]), session_id := some sid },
        rendered := ((ensure_session fid s0).history.getD [] ++ [mkTurn q ans]).reverse,
        opLog := log_to_google_sheet audit sid q ans now } := by
  have hr : retrieve_context rag.encode rag.indexQuery q default_top_k = Except.ok "" := by
    unfold retrieve_context
    simp [henc, hidx, format_all]
    rfl
  exact ⟨hr, by simp only [chat_post, hr, hgen, hsid, mkTurn]⟩

/-- Witness for C6: with a concrete empty index the context is `""` and the
model's answer to the context-free prompt is stored as the turn. -/
theorem zero_matches_empty_context_witness :
    retrieve_context (sample_rag (Except.ok "Iron carries oxygen.")).encode
      (sample_rag (Except.ok "Iron carries oxygen.")).indexQuery
      "Why iron?" default_top_k = Except.ok "" ∧
    chat_post (sample_rag (Except.ok "Iron carries oxygen.")) (sample_audit (Except.ok ()))
      "sid-1" "2024-01-01T00:00:00" { history := none, session_id := none } "Why iron?" =
      Except.ok
        { session := { history := some [mkTurn "Why iron?" "Iron carries oxygen."], session_id := some "sid-1" },
          rendered := [mkTurn "Why iron?" "Iron carries oxygen."], opLog := none } :=
  zero_matches_empty_context (sample_rag (Except.ok "Iron carries oxygen."))
    (sample_audit (Except.ok ())) "sid-1" "2024-01-01T00:00:00" "Why iron?" "sid-1"
    "Iron carries oxygen." [1.0] { history := none, session_id := none } rfl rfl rfl rfl

/-- `Except.error e >>= f` short-circuits to the same error. -/
theorem error_bind {α β : Type} (e : String) (f : α → Except String β) :
    (Except.error e >>= f : Except String β) = Except.error e := rfl

/-- `Except.ok a >>= f` continues with `f a`. -/
theorem ok_bind {α β : Type} (a : α) (f : α → Except String β) :
    (Except.ok a >>= f : Except String β) = f a := rfl

/-- Claim C7: `log_to_google_sheet` never raises to its caller — a failure
of credential decode, authorization, spreadsheet open or row append is
swallowed into an operational log line — and the HTTP response (session and
rendered transcript, hence status) is identical whatever the audit services
do. -/
theorem audit_failures_isolated (rag : RagEnv) (a1 a2 : AuditEnv)
    (fid now q sid ui br ts e : String) (s0 : SessionState)
    (hfail : get_google_credentials a1 = Except.error e ∨
      (∃ c, get_google_credentials a1 = Except.ok c ∧ a1.authorize c = Except.error e) ∨
      (∃ c cl, get_google_credentials a1 = Except.ok c ∧ a1.authorize c = Except.ok cl ∧
        a1.openSheet cl = Except.error e) ∨
      (∃ c cl sh, get_google_credentials a1 = Except.ok c ∧ a1.authorize c = Except.ok cl ∧
        a1.openSheet cl = Except.ok sh ∧
        a1.appendRow sh [sid, ts, ui, br] = Except.error e)) :
    log_to_google_sheet a1 sid ui br ts = some ("❌ Failed to log to Google Sheet: " ++ e) ∧
    (chat_post rag a1 fid now s0 q).map (fun r => (r.session, r.rendered)) =
      (chat_post rag a2 fid now s0 q).map (fun r => (r.session, r.rendered)) := by
  constructor
  · unfold log_to_google_sheet
    rcases hfail with h | ⟨c, hc, h⟩ | ⟨c, cl, hc, hcl, h⟩ | ⟨c, cl, sh, hc, hcl, hsh, h⟩
    · simp [h, error_bind]
    · simp [hc, ok_bind, h, error_bind]
    · simp [hc, hcl, ok_bind, h, error_bind]
    · simp [hc, hcl, hsh, ok_bind, h, error_bind]
  · cases hr : retrieve_context rag.encode rag.indexQuery q default_top_k with
    | error e2 => simp [chat_post, hr]
    | ok context =>
      cases hsid : (ensure_session fid s0).session_id with
      | none => simp [chat_post, hr, hsid]
      | some sid2 => simp [chat_post, hr, hsid, Except.map]

/-- Witness for C7: with concrete audit services whose row append fails, the
logger returns only the operational line, and a POST's session and rendered
transcript equal those produced with fully working audit services. -/
theorem audit_failures_isolated_witness :
    log_to_google_sheet (sample_audit (Except.error "insufficient permissions"))
      "sid-0" "Why iron?" "ans" "2024-01-01T00:00:00" =
      some "❌ Failed to log to Google Sheet: insufficient permissions" ∧
    (chat_post (sample_rag (Except.ok "ans"))
      (sample_audit (Except.error "insufficient permissions"))
      "sid-1" "2024-01-01T00:00:00" { history := none, session_id := none }
      "Why iron?").map (fun r => (r.session, r.rendered)) =
    (chat_post (sample_rag (Except.ok "ans")) (sample_audit (Except.ok ()))
      "sid-1" "2024-01-01T00:00:00" { history := none, session_id := none }
      "Why iron?").map (fun r => (r.session, r.rendered)) :=
  audit_failures_isolated (sample_rag (Except.ok "ans"))
    (sample_audit (Except.error "insufficient permissions")) (sample_audit (Except.ok ()))
    "sid-1" "2024-01-01T00:00:00" "Why iron?" "sid-0" "Why iron?" "ans"
    "2024-01-01T00:00:00" "insufficient permissions"
    { history := none, session_id := none }
    (Or.inr (Or.inr (Or.inr ⟨"c", "cl", "sh", rfl, rfl, rfl, rfl⟩)))

/-- Every handler-reachable session has its `history` key exactly when it
has its `session_id` key: the two are created together by the same branch. -/
theorem reachable_history_iff_sid (s : SessionState) (hs : Reachable s) :
    s.history.isSome ↔ s.session_id.isSome := by
  induction hs with
  | init => simp
  | get s fid hs ih =>
    show (ensure_session fid s).history.isSome ↔ (ensure_session fid s).session_id.isSome
    unfold ensure_session
    split
    · simp
    · exact ih
  | post s rag audit fid now q r hs hok ih =>
    obtain ⟨t, _, hsess, _⟩ := chat_post_ok_inversion rag audit fid now q s r hok
    rw [hsess]
    simp only [Option.isSome_some, true_iff]
    unfold ensure_session
    split
    · simp
    · next hni =>
      refine ih.mp ?_
      cases hh : s.history with
      | none => rw [hh] at hni; simp at hni
      | some l => simp

/-- Claim C10: a handler-reachable session that has a history also has a
session id (the two keys are created together by the same branch), and
neither a later GET nor a later successful POST reassigns that session id,
so every audit row for the session carries the same id. -/
theorem session_id_created_once (s : SessionState) (h : List Turn)
    (fid fid2 now q : String) (rag : RagEnv) (audit : AuditEnv) (r : ChatResult)
    (hreach : Reachable s) (hhist : s.history = some h)
    (hok : chat_post rag audit fid2 now s q = Except.ok r) :
    s.session_id.isSome ∧
    (chat_get fid s).session.session_id = s.session_id ∧
    r.session.session_id = s.session_id := by
  have hsome : s.session_id.isSome :=
    (reachable_history_iff_sid s hreach).mp (by rw [hhist]; rfl)
  have hens : ∀ f : String, ensure_session f s = s := by
    intro f
    unfold ensure_session
    rw [hhist]
    rfl
  refine ⟨hsome, ?_, ?_⟩
  · show (ensure_session fid s).session_id = s.session_id
    rw [hens]
  · obtain ⟨t, _, hsess, _⟩ := chat_post_ok_inversion rag audit fid2 now q s r hok
    rw [hsess]
    show (ensure_session fid2 s).session_id = s.session_id
    rw [hens]

/-- Witness for C10: the session created by a first GET is reachable, has
both keys, and a concrete later GET and a concrete later POST both keep its
session id. -/
theorem session_id_created_once_witness :
    ({ history := some [], session_id := some "sid-1" } : SessionState).session_id.isSome ∧
    (chat_get "sid-9" { history := some [], session_id := some "sid-1" }).session.session_id =
      some "sid-1" ∧
    ({ session := { history := some [mkTurn "Why iron?" "ans"], session_id := some "sid-1" },
       rendered := [mkTurn "Why iron?" "ans"], opLog := none } : ChatResult).session.session_id =
      some "sid-1" :=
  session_id_created_once { history := some [], session_id := some "sid-1" } []
    "sid-9" "sid-2" "2024-01-01T00:00:00" "Why iron?"
    (sample_rag (Except.ok "ans")) (sample_audit (Except.ok ()))
    { session := { history := some [mkTurn "Why iron?" "ans"], session_id := some "sid-1" },
      rendered := [mkTurn "Why iron?" "ans"], opLog := none }
    (Reachable.get { history := none, session_id := none } "sid-1" Reachable.init)
    rfl rfl

end IronLLM
